import Mathlib

set_option autoImplicit false

/-
  Verification of the arceos VFS layer and its POSIX shim.

  Shallow embedding of:
  - src/modules/axfs-ng/src/highlevel/fs.rs  (FsContext, ReadDir)
  - src/modules/axfs-ng/src/fs/fat/{dir.rs, fs.rs, util.rs}  (FAT adapter)
  - src/modules/axfs-ng/src/fs/ext4/util.rs  (ext4 error mapping)
  - src/api/arceos_posix_api/src/imp/fs.rs  (POSIX syscall shim)

  Machine integers are modelled as Nat/Int; fallible code returns Except.
  Operations of this repository that are not under src (the axfs_ng_vfs
  Path type, the fd_ops FD-table helpers, the axerrno error codes, the
  syscall_body! macro) are modelled from the spec and marked as such.
-/

namespace ArceosVfs

/-- Canonical VFS error taxonomy (axfs_ng_vfs VfsError), with the variants
used across the files under src. -/
inductive VfsError where
  | notFound
  | alreadyExists
  | isADirectory
  | notADirectory
  | directoryNotEmpty
  | invalidInput
  | invalidData
  | permissionDenied
  | ioErr
  | storageFull
  | unsupported
  | resourceBusy
  | badAddress
  | wouldBlock
  | addrInUse
  | connectionRefused
  | connectionReset
  | noMemory
  | notConnected
  deriving DecidableEq, Repr

/-- Modelled from the spec: POSIX errno constants of the axerrno crate
(not under src). The numeric values are the standard Linux errno codes. -/
inductive LinuxError where
  | EPERM
  | ENOENT
  | EIOerr
  | EBADF
  | EAGAIN
  | ENOMEM
  | EACCES
  | EFAULT
  | EBUSY
  | EEXIST
  | ENOTDIR
  | EISDIR
  | EINVAL
  | EMFILE
  | ENOSPC
  | ERANGE
  | ENOSYS
  | ENOTEMPTY
  | EADDRINUSE
  | ECONNRESET
  | ENOTCONN
  | ECONNREFUSED
  deriving DecidableEq, Repr

/-- Modelled from the spec: the numeric code of each errno (standard Linux
values; the shim returns the negation of these). -/
def LinuxError.code : LinuxError → Int
  | .EPERM => 1
  | .ENOENT => 2
  | .EIOerr => 5
  | .EBADF => 9
  | .EAGAIN => 11
  | .ENOMEM => 12
  | .EACCES => 13
  | .EFAULT => 14
  | .EBUSY => 16
  | .EEXIST => 17
  | .ENOTDIR => 20
  | .EISDIR => 21
  | .EINVAL => 22
  | .EMFILE => 24
  | .ENOSPC => 28
  | .ERANGE => 34
  | .ENOSYS => 38
  | .ENOTEMPTY => 39
  | .EADDRINUSE => 98
  | .ECONNRESET => 104
  | .ENOTCONN => 107
  | .ECONNREFUSED => 111

/-- Modelled from the spec (section 7 table): the fixed VfsError to POSIX
errno mapping used by the shim (the axerrno conversion is not under src). -/
def vfsErrno : VfsError → LinuxError
  | .notFound => .ENOENT
  | .alreadyExists => .EEXIST
  | .isADirectory => .EISDIR
  | .notADirectory => .ENOTDIR
  | .directoryNotEmpty => .ENOTEMPTY
  | .invalidInput => .EINVAL
  | .invalidData => .EINVAL
  | .permissionDenied => .EACCES
  | .ioErr => .EIOerr
  | .storageFull => .ENOSPC
  | .unsupported => .ENOSYS
  | .resourceBusy => .EBUSY
  | .badAddress => .EFAULT
  | .wouldBlock => .EAGAIN
  | .addrInUse => .EADDRINUSE
  | .connectionRefused => .ECONNREFUSED
  | .connectionReset => .ECONNRESET
  | .noMemory => .ENOMEM
  | .notConnected => .ENOTCONN

/-! ## Path model (axfs_ng_vfs Component / Path) -/

/-- Path components (axfs_ng_vfs Component): RootDir, CurDir, ParentDir,
Normal(name). -/
inductive Component where
  | curDir
  | parentDir
  | rootDir
  | normal (name : String)
  deriving DecidableEq, Repr

/-- A path is its sequence of components. -/
abbrev Path := List Component

/-- Modelled from the spec: the Path type of axfs_ng_vfs is not under src.
Per the spec, path file_name yields the last Normal component if present
(None when the path ends in RootDir, CurDir or ParentDir). -/
def fileName (p : Path) : Option String :=
  match p.getLast? with
  | some (.normal n) => some n
  | _ => none

/-! ## Filesystem tree model

A DirEntry (Location) is identified by its list of names from the root
directory (the spec invariant: a node is referenced by at most one DirEntry
per parent+name binding, and every non-root Location has a resolvable
parent). The root Location is the empty list. -/

/-- A snapshot of the directory tree: files are leaves, directories carry a
named list of children. -/
inductive FsNode where
  | file
  | dir (children : List (String × FsNode))

/-- Find a child by name in a directory's child list. -/
def childOf : List (String × FsNode) → String → Option FsNode
  | [], _ => none
  | (n, t) :: rest, name => if n = name then some t else childOf rest name

/-- The node referenced by a Location (a name list from the root). -/
def locate : FsNode → List String → Option FsNode
  | t, [] => some t
  | .dir cs, n :: rest =>
    match childOf cs n with
    | some t => locate t rest
    | none => none
  | .file, _ :: _ => none

/-- DirEntry as_dir followed by lookup(name), as used by resolve_inner:
as_dir fails NotADirectory on a file, lookup fails NotFound when the child
is absent; on success the Location is extended by the name. -/
def lookupAt (root : FsNode) (loc : List String) (name : String) :
    Except VfsError (List String) :=
  match locate root loc with
  | some (.dir cs) =>
    match childOf cs name with
    | some _ => .ok (loc ++ [name])
    | none => .error .notFound
  | some .file => .error .notADirectory
  | none => .error .notFound

/-- DirEntry as_dir as a check on a Location: a live entry always locates;
a file fails NotADirectory (spec section 4.1). The none case cannot arise
for Locations produced by resolution but is mapped to NotFound. -/
def asDirAt (root : FsNode) (loc : List String) : Except VfsError Unit :=
  match locate root loc with
  | some (.dir _) => .ok ()
  | some .file => .error .notADirectory
  | none => .error .notFound

/-- An FsContext view: the tree rooted at root_dir, and the current
directory Location. root_dir itself is the empty Location. -/
structure Ctx where
  root : FsNode
  cur : List String

/-! ## FsContext::resolve_inner (src/modules/axfs-ng/src/highlevel/fs.rs,
lines 83-108)

The loop threads the local variable `stack`, which the source initialises
with `Vec::new()` and pops on ParentDir but never pushes to; this embedding
mirrors that faithfully. -/

/-- The component loop of resolve_inner: CurDir leaves dir unchanged;
ParentDir takes the popped stack entry, defaulting to root_dir (the stack is
never pushed to in the source); RootDir resets to root_dir; Normal performs
as_dir + lookup. -/
def resolveLoop (ctx : Ctx) :
    List Component → List String → List (List String) →
    Except VfsError (List String)
  | [], dir, _ => .ok dir
  | .curDir :: rest, dir, stack => resolveLoop ctx rest dir stack
  | .parentDir :: rest, _, stack =>
    match stack with
    | top :: stack2 => resolveLoop ctx rest top stack2
    | [] => resolveLoop ctx rest [] []
  | .rootDir :: rest, _, stack => resolveLoop ctx rest [] stack
  | .normal name :: rest, dir, stack =>
    match lookupAt ctx.root dir name with
    | .ok dir2 => resolveLoop ctx rest dir2 stack
    | .error e => .error e

/-- FsContext::resolve_inner: iterate all components except the last when
file_name() is present, then require the result to be a directory. -/
def resolveInner (ctx : Ctx) (p : Path) :
    Except VfsError (List String × Option String) :=
  let entryName := fileName p
  let comps := if entryName.isSome then p.dropLast else p
  match resolveLoop ctx comps ctx.cur [] with
  | .error e => .error e
  | .ok dir =>
    match asDirAt ctx.root dir with
    | .error e => .error e
    | .ok _ => .ok (dir, entryName)

/-- The component update rule exactly as claim C1 states it: ParentDir
replaces the current directory with its parent, or with root_dir when it
has no parent (the root has no parent, so this is dropLast). Stated from
the claim's words, for comparison with resolveLoop. -/
def claimedLoop (ctx : Ctx) :
    List Component → List String → Except VfsError (List String)
  | [], dir => .ok dir
  | .curDir :: rest, dir => claimedLoop ctx rest dir
  | .parentDir :: rest, dir => claimedLoop ctx rest dir.dropLast
  | .rootDir :: rest, _ => claimedLoop ctx rest []
  | .normal name :: rest, dir =>
    match lookupAt ctx.root dir name with
    | .ok dir2 => claimedLoop ctx rest dir2
    | .error e => .error e

/-- resolve_inner as claim C1 describes it. -/
def claimedResolveInner (ctx : Ctx) (p : Path) :
    Except VfsError (List String × Option String) :=
  let entryName := fileName p
  let comps := if entryName.isSome then p.dropLast else p
  match claimedLoop ctx comps ctx.cur with
  | .error e => .error e
  | .ok dir =>
    match asDirAt ctx.root dir with
    | .error e => .error e
    | .ok _ => .ok (dir, entryName)

/-- The loop as the amended claim describes it: ParentDir replaces the
current directory with root_dir unconditionally (the parent stack in the
source is never populated). -/
def amendedLoop (ctx : Ctx) :
    List Component → List String → Except VfsError (List String)
  | [], dir => .ok dir
  | .curDir :: rest, dir => amendedLoop ctx rest dir
  | .parentDir :: rest, _ => amendedLoop ctx rest []
  | .rootDir :: rest, _ => amendedLoop ctx rest []
  | .normal name :: rest, dir =>
    match lookupAt ctx.root dir name with
    | .ok dir2 => amendedLoop ctx rest dir2
    | .error e => .error e

/-- resolve_inner as the amended claim describes it. -/
def amendedResolveInner (ctx : Ctx) (p : Path) :
    Except VfsError (List String × Option String) :=
  let entryName := fileName p
  let comps := if entryName.isSome then p.dropLast else p
  match amendedLoop ctx comps ctx.cur with
  | .error e => .error e
  | .ok dir =>
    match asDirAt ctx.root dir with
    | .error e => .error e
    | .ok _ => .ok (dir, entryName)

/-- The source loop with an empty stack agrees with the amended rule. -/
theorem resolveLoop_eq_amendedLoop (ctx : Ctx) (comps : List Component)
    (dir : List String) :
    resolveLoop ctx comps dir [] = amendedLoop ctx comps dir := by
  induction comps generalizing dir with
  | nil => rfl
  | cons c rest ih =>
    cases c with
    | curDir => simpa [resolveLoop, amendedLoop] using ih dir
    | parentDir => simpa [resolveLoop, amendedLoop] using ih []
    | rootDir => simpa [resolveLoop, amendedLoop] using ih []
    | normal name =>
      simp only [resolveLoop, amendedLoop]
      cases lookupAt ctx.root dir name with
      | ok dir2 => exact ih dir2
      | error e => rfl

/-- The example filesystem for claim C1: a root directory containing `a`,
which contains `b`, an empty directory. -/
def ctxC1 : Ctx :=
  { root := .dir [("a", .dir [("b", .dir [])])], cur := [] }

/-- The path `a/b/..` (file_name is none, so all components are iterated). -/
def pathC1 : Path := [.normal "a", .normal "b", .parentDir]

/-- Claim C1 is false as stated: resolving `a/b/..` from the root of the
tree root/a/b, the source's resolve_inner yields the root directory (the
ParentDir stack is never pushed, so `..` always resets to root_dir), while
the claimed rule (ParentDir goes to the parent directory) yields `/a`. -/
theorem c1_counterexample :
    resolveInner ctxC1 pathC1 = .ok ([], none) ∧
    claimedResolveInner ctxC1 pathC1 = .ok (["a"], none) ∧
    resolveInner ctxC1 pathC1 ≠ claimedResolveInner ctxC1 pathC1 := by
  refine ⟨rfl, rfl, ?_⟩
  intro h
  rw [show resolveInner ctxC1 pathC1 = .ok ([], none) from rfl,
    show claimedResolveInner ctxC1 pathC1 = .ok (["a"], none) from rfl] at h
  simp at h

/-- Claim C1 (amended): in resolve_inner, iterating the components (all
except the last when file_name() is present), CurDir leaves the current
directory unchanged; ParentDir replaces it with root_dir unconditionally;
RootDir replaces it with root_dir; Normal(name) replaces it with the result
of lookup(name) on the current directory. -/
theorem c1_amended (ctx : Ctx) (p : Path) :
    resolveInner ctx p = amendedResolveInner ctx p := by
  simp only [resolveInner, amendedResolveInner, resolveLoop_eq_amendedLoop]

/-! ## FsContext::resolve_parent and rename
(src/modules/axfs-ng/src/highlevel/fs.rs, lines 125-134 and 208-217) -/

/-- FsContext::resolve_parent: resolve_inner, then either the returned name,
or (when file_name is absent) the directory's own parent and name;
InvalidInput when that would escape the root. -/
def resolveParent (ctx : Ctx) (p : Path) :
    Except VfsError (List String × String) :=
  match resolveInner ctx p with
  | .error e => .error e
  | .ok (dir, some name) => .ok (dir, name)
  | .ok (dir, none) =>
    match dir with
    | [] => .error .invalidInput
    | _ => .ok (dir.dropLast, dir.getLast?.getD "")

/-- Modelled from the spec: DirEntry is_ancestor_of (not under src) holds
when the first Location lies on the parent chain of the second; on the
Location model this is the prefix relation. -/
def isAncestorOf : List String → List String → Bool
  | [], _ => true
  | _ :: _, [] => false
  | a :: arest, b :: brest => a = b && isAncestorOf arest brest

/-- Replace (or append) the binding of a name in a child list. -/
def setChild : List (String × FsNode) → String → FsNode →
    List (String × FsNode)
  | [], name, node => [(name, node)]
  | (n, t) :: rest, name, node =>
    if n = name then (n, node) :: rest else (n, t) :: setChild rest name node

/-- Remove the binding of a name from a child list. -/
def removeChild : List (String × FsNode) → String → List (String × FsNode)
  | [], _ => []
  | (n, t) :: rest, name =>
    if n = name then rest else (n, t) :: removeChild rest name

/-- Apply an edit to the child list of the directory at a Location,
rebuilding the tree. -/
def updateAt (t : FsNode) (loc : List String)
    (f : List (String × FsNode) → Except VfsError (List (String × FsNode))) :
    Except VfsError FsNode :=
  match loc with
  | [] =>
    match t with
    | .dir cs => (f cs).map FsNode.dir
    | .file => .error .notADirectory
  | n :: rest =>
    match t with
    | .dir cs =>
      match childOf cs n with
      | some c => (updateAt c rest f).map fun c2 => FsNode.dir (setChild cs n c2)
      | none => .error .notFound
    | .file => .error .notADirectory

/-- Modelled from the spec (section 4.2): the backend dir-level rename,
atomic within the filesystem, replacing an existing destination; NotFound
when the source entry is absent. The codec primitives themselves are
external collaborators. -/
def treeRename (root : FsNode) (srcDir : List String) (srcName : String)
    (dstDir : List String) (dstName : String) : Except VfsError FsNode :=
  match locate root (srcDir ++ [srcName]) with
  | none => .error .notFound
  | some node =>
    match updateAt root srcDir (fun cs => .ok (removeChild cs srcName)) with
    | .error e => .error e
    | .ok root2 => updateAt root2 dstDir (fun cs => .ok (setChild cs dstName node))

/-- FsContext::rename: resolve both parents, reject with InvalidInput when
the source parent is a strict ancestor of the destination parent, then
delegate to the backend rename. The returned tree is the filesystem state
after the call (unchanged on every error path before the backend rename). -/
def renameFs (ctx : Ctx) (fromP toP : Path) :
    Except VfsError Unit × FsNode :=
  match resolveParent ctx fromP with
  | .error e => (.error e, ctx.root)
  | .ok (srcDir, srcName) =>
    match resolveParent ctx toP with
    | .error e => (.error e, ctx.root)
    | .ok (dstDir, dstName) =>
      if srcDir ≠ dstDir ∧ isAncestorOf srcDir dstDir = true then
        (.error .invalidInput, ctx.root)
      else
        match treeRename ctx.root srcDir srcName dstDir dstName with
        | .error e => (.error e, ctx.root)
        | .ok root2 => (.ok (), root2)

/-- Claim C5: for every source and destination path, FsContext::rename
fails with InvalidInput when the resolved source parent directory is an
ancestor of the resolved destination parent directory and the two parents
are not the same directory, and the tree is left unchanged. -/
theorem c5_rename_rejects_ancestor (ctx : Ctx) (fromP toP : Path)
    (srcDir dstDir : List String) (srcName dstName : String)
    (hs : resolveParent ctx fromP = .ok (srcDir, srcName))
    (hd : resolveParent ctx toP = .ok (dstDir, dstName))
    (hne : srcDir ≠ dstDir)
    (hanc : isAncestorOf srcDir dstDir = true) :
    renameFs ctx fromP toP = (.error .invalidInput, ctx.root) := by
  unfold renameFs
  rw [hs, hd]
  simp [hne, hanc]

/-- The example filesystem for the C5 witness: root/a/b, with the rename
moving /a into /a/b/c. -/
def ctxC5 : Ctx :=
  { root := .dir [("a", .dir [("b", .dir [])])], cur := [] }

/-- Source path /a for the C5 witness. -/
def fromC5 : Path := [.rootDir, .normal "a"]

/-- Destination path /a/b/c for the C5 witness. -/
def toC5 : Path := [.rootDir, .normal "a", .normal "b", .normal "c"]

/-- Witness for claim C5: renaming /a to /a/b/c in the tree root/a/b fails
with InvalidInput and leaves the tree unchanged. -/
theorem c5_witness :
    renameFs ctxC5 fromC5 toC5 = (.error .invalidInput, ctxC5.root) :=
  c5_rename_rejects_ancestor ctxC5 fromC5 toC5 [] ["a", "b"] "a" "c"
    (by rfl) (by rfl) (by simp) (by rfl)

/-! ## ReadDir iterator (src/modules/axfs-ng/src/highlevel/fs.rs,
lines 246-288) -/

/-- ReadDir::BUF_SIZE. -/
def BUF_SIZE : Nat := 128

/-- The mutable state of a ReadDir iterator: the buffered entries (a
VecDeque popped from the front), the accumulated opaque offset, and the
ended flag. -/
structure ReadDirState (α : Type) where
  buf : List α
  offset : Nat
  ended : Bool
  deriving DecidableEq, Repr

/-- One backend read_dir call as driven by ReadDir::next's visitor: the
backend yields a stream of results from the requested offset (each an entry
with its successor offset, or an error, as in the FAT adapter's read_dir);
every accepted entry is pushed to the buffer and records its offset, and
the visitor accepts while the buffer holds fewer than BUF_SIZE entries.
Returns the read_dir result together with the final buffer and offset. -/
def runVisitor {α : Type} :
    List (Except VfsError (α × Nat)) → List α → Nat →
    Except VfsError Unit × List α × Nat
  | [], buf, off => (.ok (), buf, off)
  | .error e :: _, buf, off => (.error e, buf, off)
  | .ok (ent, o) :: rest, buf, _ =>
    let buf2 := buf ++ [ent]
    if buf2.length < BUF_SIZE then runVisitor rest buf2 o
    else (.ok (), buf2, o)

/-- ReadDir::next: return nothing once ended; refill via the backend when
the buffer is empty, surfacing an error only if no entry was buffered and
setting ended on an empty, error-free refill; otherwise pop the front
buffered entry. -/
def rdNext {α : Type} (B : Nat → List (Except VfsError (α × Nat)))
    (s : ReadDirState α) : Option (Except VfsError α) × ReadDirState α :=
  if s.ended then (none, s)
  else
    match s.buf with
    | [] =>
      match runVisitor (B s.offset) [] s.offset with
      | (result, [], off) =>
        match result with
        | .error e => (some (.error e), { s with offset := off })
        | .ok () => (none, { s with offset := off, ended := true })
      | (_, x :: rest, off) =>
        (some (.ok x), { s with buf := rest, offset := off })
    | x :: rest => (some (.ok x), { s with buf := rest })

/-- A refill never buffers more than BUF_SIZE entries (invariant of the
visitor's accept condition). -/
theorem runVisitor_length_le {α : Type}
    (ents : List (Except VfsError (α × Nat))) (buf : List α) (off : Nat)
    (h : buf.length < BUF_SIZE) :
    (runVisitor ents buf off).2.1.length ≤ BUF_SIZE := by
  induction ents generalizing buf off with
  | nil => exact Nat.le_of_lt h
  | cons hd rest ih =>
    cases hd with
    | error e => exact Nat.le_of_lt h
    | ok p =>
      simp only [runVisitor]
      by_cases hlt : (buf ++ [p.1]).length < BUF_SIZE
      · rw [if_pos hlt]
        exact ih _ _ hlt
      · rw [if_neg hlt]
        simp only [List.length_append, List.length_singleton]
        omega

/-- Claim C6: ReadDir::next refills by invoking the backend read_dir at the
accumulated offset, buffering at most 128 entries per refill; an empty
error-free refill terminates the iterator; an error on a refill that
buffered nothing is surfaced; an error raised after entries were buffered
is swallowed and the buffered entries are returned first. -/
theorem c6_readdir_next {α : Type}
    (B : Nat → List (Except VfsError (α × Nat))) (s : ReadDirState α)
    (hend : s.ended = false) (hbuf : s.buf = []) :
    ((runVisitor (B s.offset) [] s.offset).2.1.length ≤ BUF_SIZE) ∧
    (runVisitor (B s.offset) [] s.offset = (.ok (), [], s.offset) →
      rdNext B s = (none, { s with ended := true })) ∧
    (∀ e, runVisitor (B s.offset) [] s.offset = (.error e, [], s.offset) →
      rdNext B s = (some (.error e), s)) ∧
    (∀ e x rest off,
      runVisitor (B s.offset) [] s.offset = (.error e, x :: rest, off) →
      rdNext B s = (some (.ok x), { s with buf := rest, offset := off })) := by
  obtain ⟨sbuf, soff, sended⟩ := s
  dsimp only at hend hbuf ⊢
  subst hend
  subst hbuf
  refine ⟨runVisitor_length_le _ _ _ (by simp [BUF_SIZE]), ?_, ?_, ?_⟩
  · intro hrun
    simp [rdNext, hrun]
  · intro e hrun
    simp [rdNext, hrun]
  · intro e x rest off hrun
    simp [rdNext, hrun]

/-- Witness for claim C6: a backend yielding one entry and then an error;
next swallows the error and returns the buffered entry, advancing the
offset past it. -/
theorem c6_witness :
    rdNext (fun _ => [Except.ok (7, 1), Except.error VfsError.ioErr])
      ⟨[], 0, false⟩ =
      (some (.ok 7), ⟨[], 1, false⟩) :=
  (c6_readdir_next (fun _ => [Except.ok (7, 1), Except.error VfsError.ioErr])
    ⟨[], 0, false⟩ rfl rfl).2.2.2 .ioErr 7 [] 1 rfl

/-! ## FAT adapter (src/modules/axfs-ng/src/fs/fat/) -/

/-- Modelled fatfs codec error (the fatfs crate is an external
collaborator); the variants are exactly those matched by into_vfs_err in
src/modules/axfs-ng/src/fs/fat/util.rs. -/
inductive FatError where
  | alreadyExists
  | corruptedFileSystem
  | directoryIsNotEmpty
  | invalidFileNameLength
  | invalidInput
  | unsupportedFileNameCharacter
  | notEnoughSpace
  | notFound
  | unexpectedEof
  | writeZero
  | otherErr
  deriving DecidableEq, Repr

/-- into_vfs_err (src/modules/axfs-ng/src/fs/fat/util.rs, lines 84-98). -/
def intoVfsErr : FatError → VfsError
  | .alreadyExists => .alreadyExists
  | .corruptedFileSystem => .invalidData
  | .directoryIsNotEmpty => .directoryNotEmpty
  | .invalidFileNameLength => .invalidData
  | .invalidInput => .invalidData
  | .unsupportedFileNameCharacter => .invalidData
  | .notEnoughSpace => .storageFull
  | .notFound => .notFound
  | .unexpectedEof => .ioErr
  | .writeZero => .ioErr
  | .otherErr => .ioErr

/-- Node types (axfs_ng_vfs NodeType, listed in the spec section 3). -/
inductive NodeType where
  | regularFile
  | directory
  | symlink
  | characterDevice
  | blockDevice
  | fifo
  | socket
  | unknown
  deriving DecidableEq, Repr

/-- Modelled from the spec: the numeric discriminant of each node type
(`node_type as u8`), the POSIX file-type nibble placed above the permission
bits in st_mode. -/
def NodeType.code : NodeType → Nat
  | .fifo => 1
  | .characterDevice => 2
  | .directory => 4
  | .blockDevice => 6
  | .regularFile => 8
  | .symlink => 10
  | .socket => 12
  | .unknown => 0

/-- Modelled from the spec: NodePermission::default() of axfs_ng_vfs is not
under src; its concrete bit value is irrelevant to every claim. -/
def nodePermissionDefault : Nat := 0

/-- A duration since the Unix epoch (seconds and nanoseconds), the
timestamp representation of Metadata. -/
structure Dur where
  secs : Nat
  nanos : Nat
  deriving DecidableEq, Repr

/-- Metadata (axfs_ng_vfs), with the fields read by the files under src. -/
structure Metadata where
  inode : Nat
  device : Nat
  nlink : Nat
  mode : Nat
  nodeType : NodeType
  uid : Nat
  gid : Nat
  size : Nat
  blockSize : Nat
  blocks : Nat
  atime : Dur
  mtime : Dur
  ctime : Dur
  deriving DecidableEq, Repr

/-- Modelled fatfs file view (the codec is an external collaborator): the
codec size when available, and the three DOS timestamps already carried
through the dos_to_unix conversion (the chrono calendar arithmetic is
external; atime is the midnight of the access day). -/
structure FatFile where
  size : Option Nat
  accessedMidnight : Dur
  modifiedTime : Dur
  createdTime : Dur
  deriving DecidableEq, Repr

/-- file_metadata (src/modules/axfs-ng/src/fs/fat/util.rs, lines 58-82):
inode is the constant 1 (source comment `TODO: inode`), blocks is
size / 512. -/
def fileMetadata (f : FatFile) (nodeType : NodeType) : Metadata :=
  let size := f.size.getD 0
  { inode := 1
    device := 0
    nlink := 1
    mode := nodePermissionDefault
    nodeType := nodeType
    uid := 0
    gid := 0
    size := size
    blockSize := 512
    blocks := size / 512
    atime := f.accessedMidnight
    mtime := f.modifiedTime
    ctime := f.createdTime }

/-- FatDirNode::inode (src/modules/axfs-ng/src/fs/fat/dir.rs, lines 53-56):
the constant 1 (source comment `TODO: implement this`). -/
def fatDirNodeInode : Nat := 1

/-- FatDirNode::metadata (src/modules/axfs-ng/src/fs/fat/dir.rs, lines
59-84): a dir backed by a codec file delegates to file_metadata; the root
directory builds a fixed metadata whose inode is self.inode(). -/
def fatDirMetadata (asFile : Option FatFile) (bytesPerSector : Nat) :
    Metadata :=
  match asFile with
  | some f => fileMetadata f .directory
  | none =>
    { inode := fatDirNodeInode
      device := 0
      nlink := 1
      mode := nodePermissionDefault
      nodeType := .directory
      uid := 0
      gid := 0
      size := bytesPerSector
      blockSize := bytesPerSector
      blocks := 1
      atime := ⟨0, 0⟩
      mtime := ⟨0, 0⟩
      ctime := ⟨0, 0⟩ }

/-- Modelled slab allocator state (the slab crate is external): the list of
used keys; insert returns the smallest free key. -/
def slabNextKey (used : List Nat) : Nat :=
  (((List.range (used.length + 1)).find? (fun k => !(used.contains k))).getD 0)

/-- FatFilesystemInner::alloc_inode (src/modules/axfs-ng/src/fs/fat/fs.rs,
lines 19-21): slab insert plus one. Returns the id and the new state. -/
def allocInode (used : List Nat) : Nat × List Nat :=
  (slabNextKey used + 1, slabNextKey used :: used)

/-- FatFilesystemInner::release_inode (src/modules/axfs-ng/src/fs/fat/fs.rs,
lines 22-24). -/
def releaseInode (used : List Nat) (ino : Nat) : List Nat :=
  used.erase (ino - 1)

/-- Claim C2 is violated by the code: the slab allocator does hand out
distinct ids (FatFilesystem::new allocates the reserved root id 1 first,
and a second allocation yields 2), but the inode reported by FAT nodes is
the constant 1 from both FatDirNode::inode and the metadata paths, for
every node of the mount, so the reported ids are neither distinct nor the
slab-allocated ones. -/
theorem c2_fat_inode_constant :
    (allocInode []).1 = 1 ∧
    (allocInode (allocInode []).2).1 = 2 ∧
    fatDirNodeInode = 1 ∧
    (∀ f ty, (fileMetadata f ty).inode = 1) ∧
    (∀ bps, (fatDirMetadata none bps).inode = 1) := by
  refine ⟨rfl, rfl, rfl, fun f ty => rfl, fun bps => rfl⟩

/-- FatDirNode::link (src/modules/axfs-ng/src/fs/fat/dir.rs, lines
156-160): hard links are unsupported, always PermissionDenied; the DirEntry
result is never produced. -/
def fatLink {α : Type} (_name : String) (_node : α) : Except VfsError Unit :=
  .error .permissionDenied

/-- Claim C9: for every name and every existing entry, link on a FAT
directory node fails with PermissionDenied, and the shim's fixed errno
mapping turns PermissionDenied into EACCES (code 13). -/
theorem c9_fat_link_denied :
    (∀ (name : String) (node : List String),
      fatLink name node = .error .permissionDenied) ∧
    vfsErrno .permissionDenied = .EACCES ∧
    (vfsErrno .permissionDenied).code = 13 :=
  ⟨fun _ _ => rfl, rfl, rfl⟩

/-- FatDirNode::rename (src/modules/axfs-ng/src/fs/fat/dir.rs, lines
168-184) with the two codec outcomes abstracted: the result of
remove(dst_name) on the destination directory, and the result of the
codec's rename. Ok and Err(NotFound) removals fall through to the rename;
any other removal error is returned through into_vfs_err. -/
def fatRenameAdapter (removeRes : Except FatError Unit)
    (renameRes : Except FatError Unit) : Except VfsError Unit :=
  match removeRes with
  | .ok _ => renameRes.mapError intoVfsErr
  | .error .notFound => renameRes.mapError intoVfsErr
  | .error e => .error (intoVfsErr e)

/-- Modelled from the source comment in FatDirNode::rename: the codec
remove fails NotFound when the name is absent, and the codec rename throws
AlreadyExists when the destination name exists (and NotFound when the
source is absent). Directories are name lists (source and destination
directories distinct). -/
def codecRemove (d : List String) (n : String) :
    Except FatError (List String) :=
  if n ∈ d then .ok (d.erase n) else .error .notFound

/-- Codec rename between two distinct directories, per the source comment:
EEXIST when the destination name exists. -/
def codecRename (srcD dstD : List String) (src dst : String) :
    Except FatError (List String × List String) :=
  if src ∈ srcD then
    if dst ∈ dstD then .error .alreadyExists
    else .ok (srcD.erase src, dst :: dstD)
  else .error .notFound

/-- FatDirNode::rename over the concrete codec model: remove dst first,
treating NotFound as success, then delegate to the codec rename. -/
def fatDirRename (srcD dstD : List String) (src dst : String) :
    Except VfsError (List String × List String) :=
  match codecRemove dstD dst with
  | .ok dstD2 => (codecRename srcD dstD2 src dst).mapError intoVfsErr
  | .error .notFound => (codecRename srcD dstD src dst).mapError intoVfsErr
  | .error e => .error (intoVfsErr e)

/-- Claim C8: FAT rename removes dst_name from the destination directory
first, treating NotFound the same as success and propagating any other
removal error through into_vfs_err; consequently, when the source exists
and the destination name already exists, the rename succeeds (the entry is
replaced) instead of failing AlreadyExists. -/
theorem c8_fat_rename_replaces (rn : Except FatError Unit) :
    fatRenameAdapter (.ok ()) rn = rn.mapError intoVfsErr ∧
    fatRenameAdapter (.error .notFound) rn = rn.mapError intoVfsErr ∧
    (∀ e, e ≠ FatError.notFound →
      fatRenameAdapter (.error e) rn = .error (intoVfsErr e)) ∧
    (∀ srcD dstD src dst, src ∈ srcD → dst ∈ dstD → dstD.Nodup →
      fatDirRename srcD dstD src dst =
        .ok (srcD.erase src, dst :: dstD.erase dst)) := by
  refine ⟨rfl, rfl, ?_, ?_⟩
  · intro e he
    cases e <;> first | rfl | exact absurd rfl he
  · intro srcD dstD src dst hsrc hdst hnd
    have hrem : codecRemove dstD dst = .ok (dstD.erase dst) := by
      simp [codecRemove, hdst]
    have hnotmem : dst ∉ dstD.erase dst := hnd.not_mem_erase
    simp [fatDirRename, hrem, codecRename, hsrc, hnotmem, Except.mapError]

/-- Witness for claim C8: directory a holding f renamed onto directory b
holding g; the existing g is removed first and the rename succeeds. -/
theorem c8_witness :
    fatDirRename ["f"] ["g"] "f" "g" = .ok ([], ["g"]) :=
  (c8_fat_rename_replaces (.ok ())).2.2.2 ["f"] ["g"] "f" "g"
    (by simp) (by simp) (by simp)

/-! ## POSIX shim (src/api/arceos_posix_api/src/imp/fs.rs) -/

/-- Modelled from the spec: the syscall_body! macro (not under src) returns
the body's integer directly on success and -errno on failure (sys_open
inlines the same behaviour with unwrap_or_else). -/
def syscallBody (r : Except LinuxError Int) : Int :=
  match r with
  | .ok v => v
  | .error e => -(e.code)

/-- Modelled from the spec: the shape of a C string argument as seen by
char_ptr_to_str (not under src): null pointer, invalid UTF-8, or a valid
string. -/
inductive CStr where
  | null
  | invalidUtf8
  | valid (s : String)
  deriving DecidableEq, Repr

/-- Modelled from the spec: char_ptr_to_str fails EFAULT on a null user
pointer and EINVAL on invalid UTF-8. -/
def charPtrToStr : CStr → Except LinuxError String
  | .null => .error .EFAULT
  | .invalidUtf8 => .error .EINVAL
  | .valid s => .ok s

/-- timespec (ctypes), seconds and nanoseconds as signed integers. -/
structure Timespec where
  sec : Int
  nsec : Int
  deriving DecidableEq, Repr

/-- duration_to_timespec (src/api/arceos_posix_api/src/imp/fs.rs, lines
57-62). -/
def durationToTimespec (d : Dur) : Timespec :=
  { sec := d.secs, nsec := d.nanos }

/-- The flat stat structure at the shim boundary (ctypes::stat, spec
section 6). -/
structure CStat where
  dev : Nat
  ino : Nat
  mode : Nat
  nlinkCount : Nat
  uid : Nat
  gid : Nat
  rdev : Nat
  size : Int
  blksize : Int
  blocks : Int
  atime : Timespec
  mtime : Timespec
  ctime : Timespec
  deriving DecidableEq, Repr

/-- metadata_to_stat (src/api/arceos_posix_api/src/imp/fs.rs, lines
138-157): st_mode is the node-type code shifted left by 12 or-ed with the
permission bits. -/
def metadataToStat (m : Metadata) : CStat :=
  { dev := m.device
    ino := m.inode
    mode := (m.nodeType.code <<< 12) ||| m.mode
    nlinkCount := m.nlink
    uid := m.uid
    gid := m.gid
    rdev := 0
    size := m.size
    blksize := m.blockSize
    blocks := m.blocks
    atime := durationToTimespec m.atime
    mtime := durationToTimespec m.mtime
    ctime := durationToTimespec m.ctime }

/-- The open-file state behind the shim's File wrapper: the cursor and size
for seeks and the metadata outcome (the axfs_ng File internals are not
under src). -/
structure FileState where
  pos : Nat
  size : Nat
  metadataRes : Except VfsError Metadata

/-- A FileLike in the FD table: a File wrapper or a Directory wrapper with
its offset cookie. -/
inductive FileLike where
  | file (f : FileState)
  | dir (offset : Nat)

/-- The FD table: a mapping from fd to FileLike. -/
def FdTable := Int → Option FileLike

/-- Modelled from the spec: get_file_like (fd_ops is not under src) fails
EBADF when the fd is absent from the table. -/
def getFileLike (tbl : FdTable) (fd : Int) : Except LinuxError FileLike :=
  match tbl fd with
  | some f => .ok f
  | none => .error .EBADF

/-- File::from_fd (src/api/arceos_posix_api/src/imp/fs.rs, lines 44-49):
get_file_like then downcast to File, mapping a failed downcast (the fd
refers to a Directory) to EINVAL. -/
def fileFromFd (tbl : FdTable) (fd : Int) : Except LinuxError FileState :=
  match getFileLike tbl fd with
  | .error e => .error e
  | .ok (.file f) => .ok f
  | .ok (.dir _) => .error .EINVAL

/-- SeekFrom (axio), as built by sys_lseek. -/
inductive SeekFrom where
  | start (n : Nat)
  | current (d : Int)
  | fromEnd (d : Int)
  deriving DecidableEq, Repr

/-- Modelled from the spec (section 4.3): the seek of an open file; Start
sets the cursor, Current and End are relative to the cursor and the size,
and a negative target is rejected. -/
def seekFile (f : FileState) (pos : SeekFrom) : Except VfsError Nat :=
  match pos with
  | .start n => .ok n
  | .current d =>
    if (f.pos : Int) + d < 0 then .error .invalidInput
    else .ok ((f.pos : Int) + d).toNat
  | .fromEnd d =>
    if (f.size : Int) + d < 0 then .error .invalidInput
    else .ok ((f.size : Int) + d).toNat

/-- The `offset as u64` cast in sys_lseek: wrap into 64 bits. -/
def u64wrap (n : Int) : Nat := (n % (2 ^ 64)).toNat

/-- The whence match of sys_lseek (src lines 206-211): 0, 1, 2 select
Start, Current, End; any other value fails EINVAL. -/
def lseekPos (whence : Int) (off : Int) : Except LinuxError SeekFrom :=
  if whence = 0 then .ok (.start (u64wrap off))
  else if whence = 1 then .ok (.current off)
  else if whence = 2 then .ok (.fromEnd off)
  else .error .EINVAL

/-- The body of sys_lseek (src lines 203-215): whence match, then
File::from_fd, then seek. -/
def sysLseekE (tbl : FdTable) (fd off whence : Int) :
    Except LinuxError Int :=
  (lseekPos whence off).bind fun pos =>
    (fileFromFd tbl fd).bind fun f =>
      ((seekFile f pos).mapError vfsErrno).map (fun n => (n : Int))

/-- sys_lseek: the body wrapped by syscall_body. -/
def sysLseek (tbl : FdTable) (fd off whence : Int) : Int :=
  syscallBody (sysLseekE tbl fd off whence)

/-- The FD table used for the C4 counterexample and witness: fd 3 is an
open Directory. -/
def tblC4 : FdTable := fun fd => if fd = 3 then some (.dir 0) else none

/-- Claim C4 is false as stated on its directory clause: lseek on fd 3,
which refers to a Directory, returns -EINVAL (-22), because File::from_fd
maps the failed downcast to EINVAL; it does not return -EBADF (-9). -/
theorem c4_counterexample :
    sysLseek tblC4 3 0 0 = -(LinuxError.EINVAL.code) ∧
    sysLseek tblC4 3 0 0 ≠ -(LinuxError.EBADF.code) := by
  refine ⟨rfl, ?_⟩
  rw [show sysLseek tblC4 3 0 0 = -(LinuxError.EINVAL.code) from rfl]
  decide

/-- Claim C4 (amended): sys_lseek maps whence 0, 1, 2 to Start, Current,
End seeks of the file behind the fd; any other whence fails EINVAL; and an
fd that refers to a directory fails EINVAL (the File downcast failure), not
EBADF. -/
theorem c4_lseek (tbl : FdTable) (fd off : Int) :
    (∀ whence, whence ≠ 0 → whence ≠ 1 → whence ≠ 2 →
      sysLseek tbl fd off whence = -(LinuxError.EINVAL.code)) ∧
    (∀ d whence, tbl fd = some (.dir d) →
      sysLseek tbl fd off whence = -(LinuxError.EINVAL.code)) ∧
    (∀ f, tbl fd = some (.file f) →
      sysLseek tbl fd off 0 =
        syscallBody (((seekFile f (.start (u64wrap off))).mapError
          vfsErrno).map (fun n => (n : Int))) ∧
      sysLseek tbl fd off 1 =
        syscallBody (((seekFile f (.current off)).mapError
          vfsErrno).map (fun n => (n : Int))) ∧
      sysLseek tbl fd off 2 =
        syscallBody (((seekFile f (.fromEnd off)).mapError
          vfsErrno).map (fun n => (n : Int)))) := by
  refine ⟨?_, ?_, ?_⟩
  · intro whence h0 h1 h2
    simp [sysLseek, sysLseekE, lseekPos, h0, h1, h2, Except.bind, syscallBody]
  · intro d whence hfd
    by_cases h0 : whence = 0
    · simp [sysLseek, sysLseekE, lseekPos, h0, fileFromFd, getFileLike, hfd,
        Except.bind, syscallBody]
    · by_cases h1 : whence = 1
      · simp [sysLseek, sysLseekE, lseekPos, h0, h1, fileFromFd, getFileLike,
          hfd, Except.bind, syscallBody]
      · by_cases h2 : whence = 2
        · simp [sysLseek, sysLseekE, lseekPos, h0, h1, h2, fileFromFd,
            getFileLike, hfd, Except.bind, syscallBody]
        · simp [sysLseek, sysLseekE, lseekPos, h0, h1, h2, Except.bind,
            syscallBody]
  · intro f hfd
    refine ⟨?_, ?_, ?_⟩ <;>
      simp [sysLseek, sysLseekE, lseekPos, fileFromFd, getFileLike, hfd,
        Except.bind]

/-- Witness for claim C4: bad whence fails -EINVAL, a directory fd fails
-EINVAL, and whence 2 on a file fd seeks from the end. -/
theorem c4_witness :
    sysLseek tblC4 9 0 7 = -(LinuxError.EINVAL.code) ∧
    sysLseek tblC4 3 0 1 = -(LinuxError.EINVAL.code) :=
  ⟨(c4_lseek tblC4 9 0).1 7 (by decide) (by decide) (by decide),
   (c4_lseek tblC4 3 0).2.1 0 1 rfl⟩

/-- File::stat for a File wrapper (src lines 73-75): metadata mapped
through metadata_to_stat, errors through the fixed errno mapping; and
Directory::stat (src lines 343-345): unconditionally EBADF. -/
def fileLikeStat : FileLike → Except LinuxError CStat
  | .file f => (f.metadataRes.map metadataToStat).mapError vfsErrno
  | .dir _ => .error .EBADF

/-- The body of sys_fstat (src lines 242-252): EFAULT on a null buffer,
otherwise get_file_like(fd).stat() and 0 on success (the value written to
the buffer is the returned stat). -/
def sysFstatE (tbl : FdTable) (fd : Int) (bufNull : Bool) :
    Except LinuxError Int :=
  if bufNull then .error .EFAULT
  else ((getFileLike tbl fd).bind fileLikeStat).map (fun _ => 0)

/-- sys_fstat: the body wrapped by syscall_body. -/
def sysFstat (tbl : FdTable) (fd : Int) (bufNull : Bool) : Int :=
  syscallBody (sysFstatE tbl fd bufNull)

/-- Claim C10: for every live fd referring to an open Directory FileLike,
sys_fstat with a non-null buffer returns -EBADF, because Directory::stat
unconditionally returns EBADF. -/
theorem c10_fstat_directory (tbl : FdTable) (fd : Int) (d : Nat)
    (hfd : tbl fd = some (.dir d)) :
    sysFstat tbl fd false = -(LinuxError.EBADF.code) := by
  simp [sysFstat, sysFstatE, getFileLike, hfd, Except.bind, Except.map,
    fileLikeStat, syscallBody]

/-- The FD table used for the C10 witness: fd 5 is an open Directory. -/
def tblC10 : FdTable := fun fd => if fd = 5 then some (.dir 0) else none

/-- Witness for claim C10: fstat on directory fd 5 returns -9. -/
theorem c10_witness : sysFstat tblC10 5 false = -(LinuxError.EBADF.code) :=
  c10_fstat_directory tblC10 5 0 rfl

/-! ## sys_getcwd (src/api/arceos_posix_api/src/imp/fs.rs, lines 270-287) -/

/-- The pointer-shaped return of sys_getcwd: null (null buffer argument),
the original buffer pointer, or an error through syscall_body. -/
inductive GetcwdRet where
  | nullRet
  | bufRet
  | errRet (e : LinuxError)
  deriving DecidableEq, Repr

/-- sys_getcwd: a null buffer returns null; otherwise the buffer is viewed
as a byte slice of length size; when the absolute path (whose computation
is abstracted as its outcome) is shorter than size, its bytes plus a 0
terminator are copied to the front of the buffer and the original pointer
is returned; otherwise ERANGE with the buffer untouched. The second
component is the buffer contents after the call. -/
def sysGetcwd (bufNull : Bool) (size : Nat) (buf : List Nat)
    (cwdRes : Except VfsError (List Nat)) : GetcwdRet × List Nat :=
  if bufNull then (.nullRet, buf)
  else
    match cwdRes with
    | .error e => (.errRet (vfsErrno e), buf)
    | .ok cwd =>
      if cwd.length < size then
        (.bufRet, cwd ++ [0] ++ buf.drop (cwd.length + 1))
      else (.errRet .ERANGE, buf)

/-- Claim C7: sys_getcwd with a non-null buffer writes the current dir path
bytes followed by a null terminator and returns the original buffer pointer
when the path length is strictly below size, and fails ERANGE leaving the
buffer unmodified otherwise. -/
theorem c7_getcwd (size : Nat) (buf : List Nat) (cwd : List Nat) :
    (cwd.length < size →
      sysGetcwd false size buf (.ok cwd) =
        (.bufRet, cwd ++ [0] ++ buf.drop (cwd.length + 1))) ∧
    (¬ cwd.length < size →
      sysGetcwd false size buf (.ok cwd) = (.errRet .ERANGE, buf)) := by
  constructor
  · intro h
    simp [sysGetcwd, h]
  · intro h
    simp [sysGetcwd, h]

/-- Witness for claim C7: a 2-byte path in a 4-byte buffer is written with
its terminator and the tail is untouched; the same path in a 2-byte buffer
fails ERANGE with the buffer intact. -/
theorem c7_witness :
    sysGetcwd false 4 [9, 9, 9, 9] (.ok [65, 66]) =
      (.bufRet, [65, 66, 0, 9]) ∧
    sysGetcwd false 2 [9, 9] (.ok [65, 66]) =
      (.errRet .ERANGE, [9, 9]) :=
  ⟨(c7_getcwd 4 [9, 9, 9, 9] [65, 66]).1 (by decide),
   (c7_getcwd 2 [9, 9] [65, 66]).2 (by decide)⟩

/-! ## Error-return convention of the shim (claim C3)

sys_open (src lines 163-175) inlines unwrap_or_else(|e| -(e as i32));
sys_openat (src lines 183-198) returns -1 when char_ptr_to_str fails and
wraps the rest in syscall_body; the other syscalls wrap their whole body in
syscall_body. Operations of other crates (OpenOptions::open, FsContext
rename at this type, the File metadata) enter as their outcomes. -/

/-- sys_open: conversion result chained with the open-and-register
pipeline, errors negated inline. -/
def sysOpen (filename : CStr) (openAdd : String → Except LinuxError Int) :
    Int :=
  match (charPtrToStr filename).bind openAdd with
  | .ok fd => fd
  | .error e => -(e.code)

/-- sys_openat: an unconvertible name returns -1 directly; afterwards the
body is wrapped by syscall_body. -/
def sysOpenat (name : CStr) (openAdd : String → Except LinuxError Int) :
    Int :=
  match charPtrToStr name with
  | .error _ => -1
  | .ok s => syscallBody (openAdd s)

/-- The body of sys_stat (src lines 220-237): EFAULT on a null buffer, then
path conversion, then the open-file-stat pipeline, 0 on success. -/
def sysStatE (path : CStr) (bufNull : Bool)
    (statOf : String → Except LinuxError CStat) : Except LinuxError Int :=
  if bufNull then .error .EFAULT
  else ((charPtrToStr path).bind statOf).map (fun _ => 0)

/-- sys_stat: the body wrapped by syscall_body. -/
def sysStat (path : CStr) (bufNull : Bool)
    (statOf : String → Except LinuxError CStat) : Int :=
  syscallBody (sysStatE path bufNull statOf)

/-- The body of sys_lstat (src lines 257-267): EFAULT on a null buffer,
otherwise the buffer is zero-filled and 0 returned (the path conversion
result is never consulted). -/
def sysLstatE (bufNull : Bool) : Except LinuxError Int :=
  if bufNull then .error .EFAULT else .ok 0

/-- sys_lstat: the body wrapped by syscall_body. -/
def sysLstat (bufNull : Bool) : Int :=
  syscallBody (sysLstatE bufNull)

/-- The body of sys_rename (src lines 293-301): convert both paths, then
the FsContext rename outcome, 0 on success. -/
def sysRenameE (oldP newP : CStr)
    (ren : String → String → Except LinuxError Unit) :
    Except LinuxError Int :=
  (charPtrToStr oldP).bind fun o =>
    (charPtrToStr newP).bind fun n =>
      (ren o n).map (fun _ => 0)

/-- sys_rename: the body wrapped by syscall_body. -/
def sysRename (oldP newP : CStr)
    (ren : String → String → Except LinuxError Unit) : Int :=
  syscallBody (sysRenameE oldP newP ren)

/-- Claim C3 is false as stated: sys_openat with a null name pointer fails
(char_ptr_to_str fails EFAULT) yet returns -1, which is not the negated
errno of the failure (-14). -/
theorem c3_counterexample :
    sysOpenat CStr.null (fun _ => .ok 3) = -1 ∧
    charPtrToStr CStr.null = .error .EFAULT ∧
    (-1 : Int) ≠ -(LinuxError.EFAULT.code) := by
  refine ⟨rfl, rfl, by decide⟩

/-- Claim C3 (amended): for each of the integer-returning syscalls, every
failing input returns the negated errno of the failure, except sys_openat,
which returns -1 when the name argument cannot be converted to a string
(its failures after conversion return the negated errno). -/
theorem c3_neg_errno :
    (∀ f oa e, (charPtrToStr f).bind oa = .error e →
      sysOpen f oa = -(LinuxError.code e)) ∧
    (∀ n oa s e, charPtrToStr n = .ok s → oa s = .error e →
      sysOpenat n oa = -(LinuxError.code e)) ∧
    (∀ n oa e, charPtrToStr n = .error e → sysOpenat n oa = -1) ∧
    (∀ tbl fd off whence e, sysLseekE tbl fd off whence = .error e →
      sysLseek tbl fd off whence = -(LinuxError.code e)) ∧
    (∀ p b so e, sysStatE p b so = .error e →
      sysStat p b so = -(LinuxError.code e)) ∧
    (∀ tbl fd b e, sysFstatE tbl fd b = .error e →
      sysFstat tbl fd b = -(LinuxError.code e)) ∧
    (∀ b e, sysLstatE b = .error e → sysLstat b = -(LinuxError.code e)) ∧
    (∀ o n r e, sysRenameE o n r = .error e →
      sysRename o n r = -(LinuxError.code e)) := by
  refine ⟨?_, ?_, ?_, ?_, ?_, ?_, ?_, ?_⟩
  · intro f oa e h
    simp [sysOpen, h]
  · intro n oa s e hn h
    simp [sysOpenat, hn, syscallBody, h]
  · intro n oa e hn
    simp [sysOpenat, hn]
  · intro tbl fd off whence e h
    simp [sysLseek, syscallBody, h]
  · intro p b so e h
    simp [sysStat, syscallBody, h]
  · intro tbl fd b e h
    simp [sysFstat, syscallBody, h]
  · intro b e h
    simp [sysLstat, syscallBody, h]
  · intro o n r e h
    simp [sysRename, syscallBody, h]

/-- Witness for claim C3: sys_open on a null filename returns -EFAULT
(-14), and sys_rename on an invalid-UTF-8 destination returns -EINVAL
(-22). -/
theorem c3_witness :
    sysOpen CStr.null (fun _ => .ok 3) = -(LinuxError.code .EFAULT) ∧
    sysRename (.valid "a") .invalidUtf8 (fun _ _ => .ok ()) =
      -(LinuxError.code .EINVAL) :=
  ⟨c3_neg_errno.1 CStr.null (fun _ => .ok 3) .EFAULT rfl,
   c3_neg_errno.2.2.2.2.2.2.2 (.valid "a") .invalidUtf8 (fun _ _ => .ok ())
     .EINVAL rfl⟩

end ArceosVfs
